import Mathlib

/-!
Verification of the Hydrant Network Calculator frontend (`frontend/src/types.ts`,
`frontend/src/App.tsx`, `frontend/src/api.ts`, `frontend/src/components/PressureChart.tsx`)
against its natural-language specification.  The data model mirrors the TypeScript
interfaces field by field; numeric fields are embedded as rationals.  Parts of the
backend solver that are not part of the frontend sources (the Critical Path Finder,
the Flow Distributor and the minor-loss total) are modelled from the spec, as noted
on each such definition.
-/

namespace HydrantCalc

/-- Node kinds, from `types.ts` (`NodeType = 'source' | 'junction' | 'hydrant'`). -/
inductive NodeType : Type where
  | source
  | junction
  | hydrant
deriving DecidableEq, Repr

/-- Pressure units, from `types.ts` (`PressureUnit = 'bar' | 'kPa' | 'MPa'`). -/
inductive PressureUnit : Type where
  | bar
  | kPa
  | mPa
deriving DecidableEq, Repr

/-- A named minor-loss component, from `types.ts` (`MinorLossComponent`). -/
structure MinorLossComponent : Type where
  name : String
  K : ℚ
deriving DecidableEq, Repr

/-- A network node, from `types.ts` (`Node`). -/
structure Node : Type where
  node_id : String
  type : NodeType
  elevation_m : ℚ
  demand_lpm : ℚ
  is_active : Bool
deriving DecidableEq, Repr

/-- A pipe segment, from `types.ts` (`Edge`); `minor_components` is optional there. -/
structure Edge : Type where
  edge_id : String
  from_node : String
  to_node : String
  length_m : ℚ
  diameter_mm : ℚ
  roughness_mm : ℚ
  minor_K : ℚ
  minor_components : Option (List MinorLossComponent)
deriving DecidableEq, Repr

/-- Fluid properties, from `types.ts` (`FluidProperties`). -/
structure FluidProperties : Type where
  density_kg_m3 : ℚ
  viscosity_pa_s : ℚ
deriving DecidableEq, Repr

/-- The calculation request payload, from `types.ts` (`NetworkInput`). -/
structure NetworkInput : Type where
  nodes : List Node
  edges : List Edge
  source_pressure_bar : ℚ
  fluid : FluidProperties
  include_elevation : Bool
  pressure_unit : PressureUnit
deriving DecidableEq, Repr

/-- Per-segment results, from `types.ts` (`SegmentResult`). -/
structure SegmentResult : Type where
  edge_id : String
  from_node : String
  to_node : String
  flow_lpm : ℚ
  flow_m3s : ℚ
  velocity_ms : ℚ
  reynolds : ℚ
  friction_factor : ℚ
  delta_p_major_bar : ℚ
  delta_p_minor_bar : ℚ
  delta_p_total_bar : ℚ
  flow_regime : String
deriving DecidableEq, Repr

/-- Per-node results, from `types.ts` (`NodeResult`). -/
structure NodeResult : Type where
  node_id : String
  type : String
  elevation_m : ℚ
  demand_lpm : ℚ
  pressure_bar : ℚ
  is_active : Bool
  distance_from_source_m : ℚ
deriving DecidableEq, Repr

/-- The critical path, from `types.ts` (`CriticalPath`). -/
structure CriticalPath : Type where
  path_nodes : List String
  path_edges : List String
  total_length_m : ℚ
  critical_hydrant : String
  critical_pressure_bar : ℚ
deriving DecidableEq, Repr

/-- The calculation result, from `types.ts` (`CalculationResult`): exactly a success
flag, a message, segment results, node results, a nullable critical path, the total
demand and warnings. -/
structure CalculationResult : Type where
  success : Bool
  message : String
  segments : List SegmentResult
  nodes : List NodeResult
  critical_path : Option CriticalPath
  total_demand_lpm : ℚ
  warnings : List String
deriving DecidableEq, Repr

/-- The validate-only response, from `types.ts` (`ValidationResponse`). -/
structure ValidationResponse : Type where
  is_valid : Bool
  errors : List String
deriving DecidableEq, Repr

/-- The default fluid (water at 20 °C), from `types.ts` (`DEFAULT_FLUID`:
density 998.0, viscosity 0.001002). -/
def DEFAULT_FLUID : FluidProperties :=
  { density_kg_m3 := 998, viscosity_pa_s := 1002 / 1000000 }

/-- Modelled from the spec: the backend Segment Solver (`backend/calculator.py`,
absent from the frontend sources) computes the total minor-loss coefficient as
"K_total = sum of component coefficients if the component list is non-empty, else
the scalar coefficient". -/
def kTotal (e : Edge) : ℚ :=
  match e.minor_components with
  | some comps => if comps ≠ [] then (comps.map MinorLossComponent.K).sum else e.minor_K
  | none => e.minor_K

/-- Pressure-status classification of a node row in the results table. -/
inductive PressureBadge : Type where
  | negative
  | low
  | ok
deriving DecidableEq, Repr

/-- Status badge of a node row, from `App.tsx` (results table):
`pressure_bar < 0 ? "Negative!" : pressure_bar < 2 ? "Low" : "OK"`. -/
def nodeStatusBadge (p : ℚ) : PressureBadge :=
  if p < 0 then .negative else if p < 2 then .low else .ok

/-- Height of the warning reference line, from `PressureChart.tsx`
(`ReferenceLine y={2}`, "Min Recommended (2 bar)"). -/
def chartWarningLineY : ℚ := 2

/-- The editor state managed by `App.tsx`: the seven `useState` cells written by
`resetNetwork` (nodes, edges, source pressure, fluid, elevation flag, result, error). -/
structure EditorState : Type where
  nodes : List Node
  edges : List Edge
  sourcePressure : ℚ
  fluid : FluidProperties
  includeElevation : Bool
  result : Option CalculationResult
  error : Option String
deriving DecidableEq, Repr

/-- Removal of the node at a given index, from `App.tsx` (`removeNode`): a source
node is never removed; otherwise the node is dropped and every edge touching its id
is filtered out. -/
def removeNode (s : EditorState) (i : Fin s.nodes.length) : EditorState :=
  let node := s.nodes.get i
  if node.type = NodeType.source then s
  else
    { s with
      nodes := s.nodes.eraseIdx i.1
      edges := s.edges.filter fun e => e.from_node ≠ node.node_id ∧ e.to_node ≠ node.node_id }

/-- Reset of the editor, from `App.tsx` (`resetNetwork`): writes every one of the
seven state cells back to its initial value. -/
def resetNetwork (s : EditorState) : EditorState :=
  { s with
    nodes := [{ node_id := "S", type := NodeType.source, elevation_m := 0, demand_lpm := 0,
                is_active := true }]
    edges := []
    sourcePressure := 8
    fluid := DEFAULT_FLUID
    includeElevation := true
    result := none
    error := none }

/-- The initial editor state, from the `useState` initialisers in `App.tsx`. -/
def initialEditorState : EditorState :=
  { nodes := [{ node_id := "S", type := NodeType.source, elevation_m := 0, demand_lpm := 0,
                is_active := true }]
    edges := []
    sourcePressure := 8
    fluid := DEFAULT_FLUID
    includeElevation := true
    result := none
    error := none }

/-- Strict lexicographic order on character lists, comparing code points position by
position; a proper prefix precedes any extension. -/
def lexLt : List Char → List Char → Bool
  | [], [] => false
  | [], _ :: _ => true
  | _ :: _, [] => false
  | a :: as, b :: bs => a < b || (a = b && lexLt as bs)

/-- Strict lexicographic order on node identifiers. -/
def idLt (a b : String) : Bool := lexLt a.data b.data

/-- A node as seen by the Critical Path Finder after pressure propagation: its
identifier, kind, active flag and delivered pressure. -/
structure SolvedNode : Type where
  node_id : String
  type : NodeType
  is_active : Bool
  pressure : ℚ
deriving DecidableEq, Repr

/-- Selection candidates: nodes of kind hydrant with `active = true`. -/
def isActiveHydrant (n : SolvedNode) : Bool :=
  n.type = NodeType.hydrant && n.is_active

/-- Strict preference between candidates: lower pressure first, identical pressures
broken by the lexicographically smaller identifier. -/
def moreCritical (n m : SolvedNode) : Bool :=
  n.pressure < m.pressure || (n.pressure = m.pressure && idLt n.node_id m.node_id)

/-- Keep the current best candidate unless the next one is strictly preferred. -/
def pickCritical (m n : SolvedNode) : SolvedNode :=
  if moreCritical n m then n else m

/-- Modelled from the spec: the backend Critical Path Finder
(`backend/calculator.py`, absent from the frontend sources) selects, "among nodes of
kind hydrant with active = true, the one with minimum pressure; ties broken by
smallest node identifier in lexicographic order", and yields nothing when no active
hydrant exists. -/
def selectCritical (nodes : List SolvedNode) : Option SolvedNode :=
  match nodes.filter isActiveHydrant with
  | [] => none
  | c :: cs => some (cs.foldl pickCritical c)

/-- Non-strict preference used to state minimality of the selected hydrant. -/
def critLe (n m : SolvedNode) : Prop :=
  n.pressure < m.pressure ∨
    (n.pressure = m.pressure ∧ (n.node_id = m.node_id ∨ idLt n.node_id m.node_id))

/-- Sample solved nodes for the critical-selection witness: two active hydrants tied
at the minimum pressure 3, an inactive hydrant below them, and a junction. -/
def wNodes1 : List SolvedNode :=
  [{ node_id := "H2", type := NodeType.hydrant, is_active := true, pressure := 3 },
   { node_id := "J1", type := NodeType.junction, is_active := true, pressure := 0 },
   { node_id := "H1", type := NodeType.hydrant, is_active := true, pressure := 3 },
   { node_id := "H3", type := NodeType.hydrant, is_active := false, pressure := 1 },
   { node_id := "H4", type := NodeType.hydrant, is_active := true, pressure := 5 }]

/-- The hydrant the witness expects to be selected from `wNodes1`. -/
def wCrit1 : SolvedNode :=
  { node_id := "H1", type := NodeType.hydrant, is_active := true, pressure := 3 }

/-- Node attributes carried by the Flow Distributor's tree. -/
structure FlowNode : Type where
  node_id : String
  type : NodeType
  demand_lpm : ℚ
  is_active : Bool
deriving DecidableEq, Repr

/-- Modelled from the spec: the validated network as an oriented tree rooted at the
source — each node together with the subtrees hanging off its outgoing segments
(the tree handle the Validator produces for the solver, absent from the frontend
sources). -/
inductive NTree : Type where
  | mk : FlowNode → List NTree → NTree

/-- Attributes of the node at the root of a subtree. -/
def NTree.data : NTree → FlowNode
  | .mk d _ => d

/-- Subtrees hanging off a node's outgoing segments. -/
def NTree.children : NTree → List NTree
  | .mk _ cs => cs

/-- Demand contribution of a single node: an active hydrant contributes its demand,
every other node (source, junction, inactive hydrant) contributes zero. -/
def contribOf (d : FlowNode) : ℚ :=
  if d.type = NodeType.hydrant ∧ d.is_active then d.demand_lpm else 0

/-- Candidate test on tree nodes: kind hydrant and active. -/
def isActiveFlowNode (d : FlowNode) : Bool :=
  d.type = NodeType.hydrant && d.is_active

mutual
/-- Modelled from the spec: the Flow Distributor (`backend/calculator.py`, absent
from the frontend sources) "computes each segment's flow as the sum of demand of all
active hydrants in the subtree rooted at its downstream node, via a single
post-order traversal" — the flow entering a subtree is its root's contribution plus
the flows of its child segments, children resolved before parents. -/
def subtreeDemand : NTree → ℚ
  | .mk d cs => contribOf d + sumDemands cs
/-- Total flow of the segments leading into the given subtrees. -/
def sumDemands : List NTree → ℚ
  | [] => 0
  | t :: ts => subtreeDemand t + sumDemands ts
end

mutual
/-- All node attributes in a subtree, root first. -/
def subtreeNodes : NTree → List FlowNode
  | .mk d cs => d :: allNodes cs
/-- All node attributes in a list of subtrees. -/
def allNodes : List NTree → List FlowNode
  | [] => []
  | t :: ts => subtreeNodes t ++ allNodes ts
end

/-- Leaf hydrant "H2" with demand 3, for the C2 counterexample. -/
def cexLeaf : NTree :=
  .mk { node_id := "H2", type := NodeType.hydrant, demand_lpm := 3, is_active := true } []

/-- Interior active hydrant "H1" with demand 5 and one outgoing segment, for the C2
counterexample. -/
def cexMid : NTree :=
  .mk { node_id := "H1", type := NodeType.hydrant, demand_lpm := 5, is_active := true }
    [cexLeaf]

/-- Source root whose only outgoing segment feeds the interior hydrant, for the C2
counterexample. -/
def cexRoot : NTree :=
  .mk { node_id := "S", type := NodeType.source, demand_lpm := 0, is_active := true }
    [cexMid]

/-- Junction with one leaf hydrant below it, for the C2 witness. -/
def w2Tree : NTree :=
  .mk { node_id := "J1", type := NodeType.junction, demand_lpm := 0, is_active := true }
    [cexLeaf]

/-- A point of the pressure chart, from `PressureChart.tsx` (`ChartDataPoint`). -/
structure ChartDataPoint : Type where
  distance : ℚ
  pressure : ℚ
  nodeId : String
  type : String
deriving DecidableEq, Repr

/-- Lookup of one critical-path node id among the node results, from
`PressureChart.tsx` (`result.nodes.find(n => n.node_id === nodeId)`), packaged as
the chart point it yields when found. -/
def chartPoint (r : CalculationResult) (nodeId : String) : Option ChartDataPoint :=
  (r.nodes.find? fun n => n.node_id == nodeId).map fun n =>
    { distance := n.distance_from_source_m, pressure := n.pressure_bar,
      nodeId := n.node_id, type := n.type }

/-- Comparator of the final `data.sort((a, b) => a.distance - b.distance)` in
`PressureChart.tsx`. -/
def distanceLe (a b : ChartDataPoint) : Bool := a.distance ≤ b.distance

/-- Chart data computed by `PressureChart.tsx`: empty when the critical path is
null, otherwise one point per path node id found among the node results, sorted by
distance from the source. -/
def chartData (r : CalculationResult) : List ChartDataPoint :=
  match r.critical_path with
  | none => []
  | some cp => (cp.path_nodes.filterMap (chartPoint r)).mergeSort distanceLe

/-- What the chart component renders. -/
inductive ChartRender : Type where
  | placeholder
  | chart (data : List ChartDataPoint)
deriving DecidableEq, Repr

/-- Rendering decision of `PressureChart.tsx`: the no-data placeholder when the
chart data is empty (`chartData.length === 0`), the line chart otherwise. -/
def renderPressureChart (r : CalculationResult) : ChartRender :=
  if (chartData r).length = 0 then .placeholder else .chart (chartData r)

/-- The critical-hydrant summary card of `App.tsx`, rendered only under the
`result.critical_path &&` guard: the hydrant id and its pressure. -/
def criticalCard (r : CalculationResult) : Option (String × ℚ) :=
  r.critical_path.map fun cp => (cp.critical_hydrant, cp.critical_pressure_bar)

/-- The critical-path section of `App.tsx`, rendered only under the
`result.critical_path &&` guard: the path node ids and the total length. -/
def criticalPathSection (r : CalculationResult) : Option (List String × ℚ) :=
  r.critical_path.map fun cp => (cp.path_nodes, cp.total_length_m)

/-- An HTTP request as assembled by `api.ts`: the endpoint path and the network
payload that is JSON-serialised, unchanged, into the body. -/
structure ApiRequest : Type where
  path : String
  payload : NetworkInput
deriving DecidableEq, Repr

/-- The request `calculateNetwork` sends, from `api.ts`: POST `/api/calculate` with
the network as body. -/
def calculateRequest (n : NetworkInput) : ApiRequest :=
  { path := "/api/calculate", payload := n }

/-- The request `validateNetwork` sends, from `api.ts`: POST `/api/validate` with
the network as body. -/
def validateRequest (n : NetworkInput) : ApiRequest :=
  { path := "/api/validate", payload := n }

/-- Outcome of an `api.ts` call: a thrown error or a returned value. -/
inductive FetchOutcome (α : Type) : Type where
  | thrown (msg : String)
  | returned (v : α)
deriving DecidableEq, Repr

/-- Response handling of `validateNetwork`, from `api.ts`: a non-ok response throws
`"Validation request failed"`, an ok response returns the parsed body as is. -/
def validateNetworkOutcome (ok : Bool) (body : ValidationResponse) :
    FetchOutcome ValidationResponse :=
  if ok then .returned body else .thrown "Validation request failed"

/-- Invariant: every edge endpoint names an existing node. -/
def edgesReferenceNodes (s : EditorState) : Prop :=
  ∀ e ∈ s.edges,
    (∃ m ∈ s.nodes, m.node_id = e.from_node) ∧ (∃ m ∈ s.nodes, m.node_id = e.to_node)

/-- Invariant: a source node is present. -/
def hasSource (s : EditorState) : Prop :=
  ∃ m ∈ s.nodes, m.type = NodeType.source

/-- Node result for the source, for sample calculation results. -/
def nrS : NodeResult :=
  { node_id := "S", type := "source", elevation_m := 0, demand_lpm := 0,
    pressure_bar := 8, is_active := true, distance_from_source_m := 0 }

/-- Node result for a hydrant, for sample calculation results. -/
def nrH1 : NodeResult :=
  { node_id := "H1", type := "hydrant", elevation_m := 0, demand_lpm := 500,
    pressure_bar := 7, is_active := true, distance_from_source_m := 70 }

/-- Sample result without a critical path, for the C5 witness. -/
def resNoPath : CalculationResult :=
  { success := true, message := "Calculation completed", segments := [],
    nodes := [nrS, nrH1], critical_path := none, total_demand_lpm := 500,
    warnings := [] }

/-- Sample result without a critical path, for the C7 witness. -/
def resNoPath7 : CalculationResult :=
  { success := true, message := "Calculation completed", segments := [], nodes := [],
    critical_path := none, total_demand_lpm := 0,
    warnings := ["No active hydrant found"] }

/-- Critical path for the C8 witness, with its node ids deliberately out of distance
order and one id (`"X"`) matching no node result. -/
def cp8 : CriticalPath :=
  { path_nodes := ["H1", "X", "S"], path_edges := ["P1"], total_length_m := 70,
    critical_hydrant := "H1", critical_pressure_bar := 7 }

/-- Sample result carrying `cp8`, for the C8 witness. -/
def res8 : CalculationResult :=
  { success := true, message := "Calculation completed", segments := [],
    nodes := [nrS, nrH1], critical_path := some cp8, total_demand_lpm := 500,
    warnings := [] }

/-- Sample network input, for the C6 witness. -/
def wNet6 : NetworkInput :=
  { nodes := [{ node_id := "S", type := NodeType.source, elevation_m := 0,
                demand_lpm := 0, is_active := true }],
    edges := [], source_pressure_bar := 8, fluid := DEFAULT_FLUID,
    include_elevation := true, pressure_unit := PressureUnit.bar }

/-- Sample validation body, for the C6 witness. -/
def wVr6 : ValidationResponse :=
  { is_valid := false, errors := ["Network must contain at least one hydrant"] }

/-- Sample editor state, for the C9 witness: a source, a hydrant and one pipe
between them. -/
def w9s : EditorState :=
  { nodes := [{ node_id := "S", type := NodeType.source, elevation_m := 0,
                demand_lpm := 0, is_active := true },
              { node_id := "H1", type := NodeType.hydrant, elevation_m := 0,
                demand_lpm := 500, is_active := true }],
    edges := [{ edge_id := "P1", from_node := "S", to_node := "H1", length_m := 50,
                diameter_mm := 150, roughness_mm := 9 / 200, minor_K := 0,
                minor_components := some [] }],
    sourcePressure := 8, fluid := DEFAULT_FLUID, includeElevation := true,
    result := none, error := none }

/-- Index of the hydrant inside `w9s`, for the C9 witness. -/
def w9i : Fin w9s.nodes.length := ⟨1, by decide⟩

/-- Sample edge with a non-empty component list, for witnesses. -/
def edgeWithComps : Edge :=
  { edge_id := "P1", from_node := "S", to_node := "J1", length_m := 50, diameter_mm := 150,
    roughness_mm := 9 / 200, minor_K := 7,
    minor_components := some [{ name := "gate_valve_open", K := 2 }, { name := "exit", K := 3 }] }

/-- Sample edge with no component list, for witnesses. -/
def edgeNoComps : Edge :=
  { edge_id := "P2", from_node := "J1", to_node := "H1", length_m := 20, diameter_mm := 65,
    roughness_mm := 9 / 200, minor_K := 7, minor_components := none }

/-- Sample edge with an empty component list, for witnesses. -/
def edgeEmptyComps : Edge :=
  { edge_id := "P3", from_node := "J1", to_node := "H2", length_m := 20, diameter_mm := 65,
    roughness_mm := 9 / 200, minor_K := 7, minor_components := some [] }

/-- C3: for every segment, the total minor-loss coefficient equals the sum of the
component K values when the named component list is non-empty, and equals the scalar
`minor_K` when the list is absent or empty: a non-empty list always overrides the
scalar. -/
theorem minor_loss_component_override (e : Edge) :
    (∀ comps, e.minor_components = some comps → comps ≠ [] →
      kTotal e = (comps.map MinorLossComponent.K).sum) ∧
    ((e.minor_components = none ∨ e.minor_components = some []) → kTotal e = e.minor_K) := by
  constructor
  · intro comps hsome hne
    simp [kTotal, hsome, hne]
  · rintro (hnone | hempty)
    · simp [kTotal, hnone]
    · simp [kTotal, hempty]

/-- Witness for C3: the three cases evaluated on concrete edges. -/
theorem minor_loss_component_override_witness :
    kTotal edgeWithComps = 5 ∧ kTotal edgeNoComps = 7 ∧ kTotal edgeEmptyComps = 7 := by
  refine ⟨?_, ?_, ?_⟩
  · have h := (minor_loss_component_override edgeWithComps).1
      [{ name := "gate_valve_open", K := 2 }, { name := "exit", K := 3 }] rfl (by decide)
    rw [h]; norm_num
  · exact (minor_loss_component_override edgeNoComps).2 (Or.inl rfl)
  · exact (minor_loss_component_override edgeEmptyComps).2 (Or.inr rfl)

/-- C4: a node row is flagged negative exactly when its pressure is strictly below
0 bar, flagged low exactly when it is at least 0 and strictly below 2 bar, and
flagged OK exactly when it is at least 2 bar; the chart's warning reference line sits
at the same 2 bar threshold. -/
theorem pressure_status_thresholds (p : ℚ) :
    (nodeStatusBadge p = .negative ↔ p < 0) ∧
    (nodeStatusBadge p = .low ↔ 0 ≤ p ∧ p < 2) ∧
    (nodeStatusBadge p = .ok ↔ 2 ≤ p) ∧
    chartWarningLineY = 2 := by
  unfold nodeStatusBadge chartWarningLineY
  split_ifs with h0 h2
  · exact ⟨⟨fun _ => h0, fun _ => rfl⟩,
      ⟨fun h => (nomatch h), fun h => absurd h0 (not_lt.mpr h.1)⟩,
      ⟨fun h => (nomatch h), fun h => absurd h0 (not_lt.mpr (le_trans (by norm_num) h))⟩, rfl⟩
  · exact ⟨⟨fun h => (nomatch h), fun h => absurd h h0⟩,
      ⟨fun _ => ⟨not_lt.mp h0, h2⟩, fun _ => rfl⟩,
      ⟨fun h => (nomatch h), fun h => absurd h2 (not_lt.mpr h)⟩, rfl⟩
  · exact ⟨⟨fun h => (nomatch h), fun h => absurd h h0⟩,
      ⟨fun h => (nomatch h), fun h => absurd h.2 h2⟩,
      ⟨fun _ => not_lt.mp h2, fun _ => rfl⟩, rfl⟩

/-- C10: resetting produces exactly the initial editor state — a single source node
"S" at elevation 0 with demand 0, active, no edges, source pressure 8 bar, the
default fluid (density 998, viscosity 0.001002), elevation inclusion enabled, and
cleared result and error — independently of the prior state. -/
theorem reset_is_state_independent (s t : EditorState) :
    resetNetwork s = initialEditorState ∧
    resetNetwork s = resetNetwork t ∧
    initialEditorState =
      { nodes := [{ node_id := "S", type := NodeType.source, elevation_m := 0, demand_lpm := 0,
                    is_active := true }]
        edges := []
        sourcePressure := 8
        fluid := { density_kg_m3 := 998, viscosity_pa_s := 1002 / 1000000 }
        includeElevation := true
        result := none
        error := none } :=
  ⟨rfl, rfl, rfl⟩

/-- Transitivity of the strict lexicographic order on character lists. -/
theorem lexLt_trans : ∀ a b c : List Char, lexLt a b → lexLt b c → lexLt a c := by
  intro a
  induction a with
  | nil =>
    intro b c hab hbc
    cases b with
    | nil => simp [lexLt] at hab
    | cons y ys =>
      cases c with
      | nil => simp [lexLt] at hbc
      | cons z zs => simp [lexLt]
  | cons x xs ih =>
    intro b c hab hbc
    cases b with
    | nil => simp [lexLt] at hab
    | cons y ys =>
      cases c with
      | nil => simp [lexLt] at hbc
      | cons z zs =>
        simp only [lexLt, Bool.or_eq_true, Bool.and_eq_true, decide_eq_true_eq] at hab hbc ⊢
        rcases hab with hxy | ⟨hxy, hx⟩
        · rcases hbc with hyz | ⟨hyz, hy⟩
          · exact Or.inl (lt_trans hxy hyz)
          · exact Or.inl (by rw [← hyz]; exact hxy)
        · rcases hbc with hyz | ⟨hyz, hy⟩
          · exact Or.inl (by rw [hxy]; exact hyz)
          · exact Or.inr ⟨hxy.trans hyz, ih ys zs hx hy⟩

/-- Connectivity of the strict lexicographic order on character lists. -/
theorem lexLt_connex : ∀ a b : List Char, a = b ∨ lexLt a b ∨ lexLt b a := by
  intro a
  induction a with
  | nil =>
    intro b
    cases b with
    | nil => exact Or.inl rfl
    | cons y ys => exact Or.inr (Or.inl (by simp [lexLt]))
  | cons x xs ih =>
    intro b
    cases b with
    | nil => exact Or.inr (Or.inr (by simp [lexLt]))
    | cons y ys =>
      rcases lt_trichotomy x y with hlt | heq | hgt
      · exact Or.inr (Or.inl (by simp [lexLt, hlt]))
      · subst heq
        rcases ih ys with heq2 | hlt2 | hgt2
        · exact Or.inl (by rw [heq2])
        · exact Or.inr (Or.inl (by simp [lexLt, hlt2]))
        · exact Or.inr (Or.inr (by simp [lexLt, hgt2]))
      · exact Or.inr (Or.inr (by simp [lexLt, hgt]))

/-- Transitivity of the identifier order. -/
theorem idLt_trans {a b c : String} : idLt a b → idLt b c → idLt a c :=
  lexLt_trans a.data b.data c.data

/-- Connectivity of the identifier order. -/
theorem idLt_connex (a b : String) : a = b ∨ idLt a b ∨ idLt b a := by
  rcases lexLt_connex a.data b.data with h | h | h
  · exact Or.inl (String.ext h)
  · exact Or.inr (Or.inl h)
  · exact Or.inr (Or.inr h)

/-- Reflexivity of the candidate preference. -/
theorem critLe_refl (n : SolvedNode) : critLe n n := Or.inr ⟨rfl, Or.inl rfl⟩

/-- Transitivity of the candidate preference. -/
theorem critLe_trans {a b c : SolvedNode} (hab : critLe a b) (hbc : critLe b c) :
    critLe a c := by
  rcases hab with h1 | ⟨h1, h1'⟩
  · rcases hbc with h2 | ⟨h2, h2'⟩
    · exact Or.inl (lt_trans h1 h2)
    · exact Or.inl (by rw [← h2]; exact h1)
  · rcases hbc with h2 | ⟨h2, h2'⟩
    · exact Or.inl (by rw [h1]; exact h2)
    · refine Or.inr ⟨h1.trans h2, ?_⟩
      rcases h1' with hid | hid
      · rcases h2' with hid2 | hid2
        · exact Or.inl (hid.trans hid2)
        · exact Or.inr (by rw [hid]; exact hid2)
      · rcases h2' with hid2 | hid2
        · exact Or.inr (by rw [← hid2]; exact hid)
        · exact Or.inr (idLt_trans hid hid2)

/-- A strictly preferred candidate is weakly preferred. -/
theorem moreCritical_critLe {n m : SolvedNode} (h : moreCritical n m) : critLe n m := by
  unfold moreCritical at h
  simp only [Bool.or_eq_true, Bool.and_eq_true, decide_eq_true_eq] at h
  rcases h with h | ⟨h1, h2⟩
  · exact Or.inl h
  · exact Or.inr ⟨h1, Or.inr h2⟩

/-- When the challenger is not strictly preferred, the incumbent is weakly
preferred to it. -/
theorem not_moreCritical_critLe {n m : SolvedNode} (h : ¬ moreCritical n m) :
    critLe m n := by
  unfold moreCritical at h
  simp only [Bool.or_eq_true, Bool.and_eq_true, decide_eq_true_eq, not_or, not_and] at h
  obtain ⟨hlt, htie⟩ := h
  rcases eq_or_lt_of_le (not_lt.mp hlt) with heq | hlt2
  · have hnid : ¬ idLt n.node_id m.node_id = true := htie heq.symm
    rcases idLt_connex m.node_id n.node_id with hid | hid | hid
    · exact Or.inr ⟨heq, Or.inl hid⟩
    · exact Or.inr ⟨heq, Or.inr hid⟩
    · exact absurd hid hnid
  · exact Or.inl hlt2

/-- The picking step keeps one of its two arguments. -/
theorem pickCritical_mem (m n : SolvedNode) :
    pickCritical m n = m ∨ pickCritical m n = n := by
  unfold pickCritical
  split_ifs
  · exact Or.inr rfl
  · exact Or.inl rfl

/-- The picking step is weakly preferred to its first argument. -/
theorem pickCritical_le_left (m n : SolvedNode) : critLe (pickCritical m n) m := by
  unfold pickCritical
  split_ifs with h
  · exact moreCritical_critLe h
  · exact critLe_refl m

/-- The picking step is weakly preferred to its second argument. -/
theorem pickCritical_le_right (m n : SolvedNode) : critLe (pickCritical m n) n := by
  unfold pickCritical
  split_ifs with h
  · exact critLe_refl n
  · exact not_moreCritical_critLe h

/-- Folding the picking step over candidates returns a candidate weakly preferred to
every candidate. -/
theorem foldl_pickCritical_spec :
    ∀ (cs : List SolvedNode) (c : SolvedNode),
      cs.foldl pickCritical c ∈ c :: cs ∧
        ∀ x ∈ c :: cs, critLe (cs.foldl pickCritical c) x := by
  intro cs
  induction cs with
  | nil =>
    intro c
    refine ⟨List.mem_singleton_self c, ?_⟩
    intro x hx
    rw [List.mem_singleton] at hx
    subst hx
    exact critLe_refl x
  | cons n cs ih =>
    intro c
    obtain ⟨hmem, hmin⟩ := ih (pickCritical c n)
    have hfold : (n :: cs).foldl pickCritical c = cs.foldl pickCritical (pickCritical c n) :=
      rfl
    constructor
    · rw [hfold]
      rcases List.mem_cons.mp hmem with heq | hcs
      · rcases pickCritical_mem c n with h | h
        · rw [heq, h]
          exact List.mem_cons_self _ _
        · rw [heq, h]
          exact List.mem_cons_of_mem _ (List.mem_cons_self _ _)
      · exact List.mem_cons_of_mem _ (List.mem_cons_of_mem _ hcs)
    · intro x hx
      rw [hfold]
      have hpick := hmin (pickCritical c n) (List.mem_cons_self _ _)
      rcases List.mem_cons.mp hx with heq | hx2
      · subst heq
        exact critLe_trans hpick (pickCritical_le_left _ _)
      · rcases List.mem_cons.mp hx2 with heq | hx3
        · subst heq
          exact critLe_trans hpick (pickCritical_le_right _ _)
        · exact hmin x (List.mem_cons_of_mem _ hx3)

/-- C1: among nodes of kind hydrant with `active = true`, the Critical Path Finder
selects one of them with minimum delivered pressure; at identical minimum pressure
its identifier is lexicographically smallest, and under the unique-identifier
invariant the selected hydrant is the unique such minimum — the selector is a pure
function, so repeated invocations on a fixed input give the identical result. -/
theorem critical_hydrant_selection (nodes : List SolvedNode) (c : SolvedNode)
    (h : selectCritical nodes = some c) :
    c ∈ nodes.filter isActiveHydrant ∧
    (∀ n ∈ nodes.filter isActiveHydrant,
      c.pressure ≤ n.pressure ∧
        (c.pressure = n.pressure → c.node_id = n.node_id ∨ idLt c.node_id n.node_id)) ∧
    ((nodes.map SolvedNode.node_id).Nodup →
      ∀ n ∈ nodes.filter isActiveHydrant, n.node_id = c.node_id → n = c) := by
  unfold selectCritical at h
  cases hf : nodes.filter isActiveHydrant with
  | nil =>
    rw [hf] at h
    cases h
  | cons c0 cs =>
    rw [hf] at h
    injection h with h
    obtain ⟨hmem, hmin⟩ := foldl_pickCritical_spec cs c0
    rw [h] at hmem hmin
    have hcf : c ∈ nodes.filter isActiveHydrant := by rw [hf]; exact hmem
    refine ⟨hmem, ?_, ?_⟩
    · intro n hn
      rcases hmin n hn with hlt | ⟨heq, hid⟩
      · exact ⟨le_of_lt hlt, fun hpeq => absurd hpeq (ne_of_lt hlt)⟩
      · exact ⟨le_of_eq heq, fun _ => hid⟩
    · intro hnd n hn hid
      have hnf : n ∈ nodes.filter isActiveHydrant := by rw [hf]; exact hn
      exact List.inj_on_of_nodup_map hnd (List.mem_of_mem_filter hnf)
        (List.mem_of_mem_filter hcf) hid

/-- Witness for C1: on `wNodes1`, whose two active hydrants tie at the minimum
pressure 3, the selector returns the one with the lexicographically smaller
identifier, `"H1"`. -/
theorem critical_hydrant_selection_witness :
    wCrit1 ∈ wNodes1.filter isActiveHydrant ∧
    (∀ n ∈ wNodes1.filter isActiveHydrant,
      wCrit1.pressure ≤ n.pressure ∧
        (wCrit1.pressure = n.pressure →
          wCrit1.node_id = n.node_id ∨ idLt wCrit1.node_id n.node_id)) ∧
    ((wNodes1.map SolvedNode.node_id).Nodup →
      ∀ n ∈ wNodes1.filter isActiveHydrant, n.node_id = wCrit1.node_id → n = wCrit1) :=
  critical_hydrant_selection wNodes1 wCrit1 (by decide)

mutual
/-- A subtree's incoming flow is the total contribution of the nodes it contains. -/
theorem subtreeDemand_eq_sum :
    ∀ t : NTree, subtreeDemand t = ((subtreeNodes t).map contribOf).sum
  | .mk d cs => by
    rw [subtreeDemand, subtreeNodes, sumDemands_eq_sum cs]
    simp
/-- Total incoming flow of a list of subtrees as a contribution sum. -/
theorem sumDemands_eq_sum :
    ∀ ts : List NTree, sumDemands ts = ((allNodes ts).map contribOf).sum
  | [] => by
    rw [sumDemands, allNodes]
    simp
  | t :: ts => by
    rw [sumDemands, allNodes, subtreeDemand_eq_sum t, sumDemands_eq_sum ts]
    simp
end

/-- The recursive segment-flow total agrees with mapping `subtreeDemand` over the
child list and summing. -/
theorem sumDemands_eq_map : ∀ ts : List NTree, sumDemands ts = (ts.map subtreeDemand).sum
  | [] => by
    rw [sumDemands]
    simp
  | t :: ts => by
    rw [sumDemands, sumDemands_eq_map ts]
    simp

/-- Contribution sums count exactly the demands of active hydrants. -/
theorem contrib_sum_eq_filter (l : List FlowNode) :
    (l.map contribOf).sum =
      ((l.filter isActiveFlowNode).map FlowNode.demand_lpm).sum := by
  induction l with
  | nil => simp
  | cons d l ih =>
    by_cases h : d.type = NodeType.hydrant ∧ d.is_active = true
    · have hb : isActiveFlowNode d = true := by
        simp [isActiveFlowNode, h.1, h.2]
      simp [contribOf, h, List.filter_cons, hb, ih]
    · have hb : isActiveFlowNode d = false := by
        simp only [isActiveFlowNode, Bool.and_eq_true, decide_eq_true_eq] at *
        by_contra hc
        simp only [Bool.not_eq_false, Bool.and_eq_true, decide_eq_true_eq] at hc
        exact h hc
      simp [contribOf, h, List.filter_cons, hb, ih]

/-- Counterexample for C2: in the validated tree `cexRoot`, the interior active
hydrant `cexMid` is a non-leaf node whose incoming segment carries flow 8 (its own
demand 5 plus the leaf's 3) while its outgoing segments carry total flow 3, so the
flow on its incoming segment differs from the sum of the flows on its outgoing
segments. -/
theorem flow_conservation_cex :
    cexMid ∈ cexRoot.children ∧ cexMid.children ≠ [] ∧
    subtreeDemand cexMid ≠ (cexMid.children.map subtreeDemand).sum := by
  refine ⟨?_, ?_, ?_⟩
  · rw [cexRoot, NTree.children]
    exact List.mem_singleton_self _
  · rw [cexMid, NTree.children]
    simp
  · have hleaf : subtreeDemand cexLeaf = 3 := by
      norm_num [cexLeaf, subtreeDemand, sumDemands, contribOf]
    have hmid : subtreeDemand cexMid = 8 := by
      norm_num [cexMid, cexLeaf, subtreeDemand, sumDemands, contribOf]
    have hch : cexMid.children = [cexLeaf] := rfl
    rw [hch, hmid]
    simp only [List.map_cons, List.map_nil, List.sum_cons, List.sum_nil, hleaf]
    norm_num

/-- C2 (amended): every segment's flow — the subtree demand of its downstream
node — equals the sum of the demands of the active hydrants in that subtree
(inactive hydrants contributing zero), and the flow entering any node equals the
node's own demand contribution plus the sum of the flows on its outgoing segments;
conservation in the original sense (incoming = sum of outgoing) therefore holds at
exactly the non-leaf nodes whose own contribution is zero. -/
theorem flow_distribution_amended (t : NTree) :
    subtreeDemand t =
      (((subtreeNodes t).filter isActiveFlowNode).map FlowNode.demand_lpm).sum ∧
    subtreeDemand t = contribOf t.data + (t.children.map subtreeDemand).sum ∧
    (contribOf t.data = 0 → subtreeDemand t = (t.children.map subtreeDemand).sum) := by
  refine ⟨?_, ?_, ?_⟩
  · rw [subtreeDemand_eq_sum t, contrib_sum_eq_filter]
  · cases t with
    | mk d cs => rw [subtreeDemand, NTree.data, NTree.children, sumDemands_eq_map]
  · intro h0
    cases t with
    | mk d cs =>
      rw [NTree.data] at h0
      rw [subtreeDemand, NTree.children, sumDemands_eq_map, h0, zero_add]

/-- Witness for C2 (amended): at the zero-contribution junction `w2Tree` the
incoming flow equals the sum of the outgoing flows. -/
theorem flow_distribution_amended_witness :
    subtreeDemand w2Tree = (w2Tree.children.map subtreeDemand).sum :=
  (flow_distribution_amended w2Tree).2.2 (by decide)

/-- C5: a calculation result consists of exactly the seven output fields — success
flag, message, segment results, node results, a critical path that may be absent
(`none`), total demand, and warnings — and every client read of the critical path is
guarded on its possible absence: with an absent path the summary card, the path
section and the chart data all degrade to their empty forms instead of
dereferencing it. -/
theorem output_shape (r : CalculationResult) :
    r = { success := r.success, message := r.message, segments := r.segments,
          nodes := r.nodes, critical_path := r.critical_path,
          total_demand_lpm := r.total_demand_lpm, warnings := r.warnings } ∧
    (r.critical_path = none →
      criticalCard r = none ∧ criticalPathSection r = none ∧ chartData r = []) := by
  refine ⟨rfl, fun h => ⟨?_, ?_, ?_⟩⟩
  · rw [criticalCard, h]
    rfl
  · rw [criticalPathSection, h]
    rfl
  · unfold chartData
    rw [h]

/-- Witness for C5: the guarded views of a concrete result with an absent critical
path. -/
theorem output_shape_witness :
    criticalCard resNoPath = none ∧ criticalPathSection resNoPath = none ∧
    chartData resNoPath = [] :=
  (output_shape resNoPath).2 rfl

/-- C6: `validateNetwork` posts the same untransformed network payload as the
calculation entry point to its own endpoint; on an ok response it returns exactly
the parsed `{is_valid, errors}` body, performing no solving; on a non-ok response it
throws instead of returning a validation result. -/
theorem validate_entry_point (n : NetworkInput) (ok : Bool) (body : ValidationResponse) :
    (validateRequest n).payload = n ∧
    (validateRequest n).payload = (calculateRequest n).payload ∧
    body = { is_valid := body.is_valid, errors := body.errors } ∧
    (ok = true → validateNetworkOutcome ok body = .returned body) ∧
    (ok = false →
      validateNetworkOutcome ok body = .thrown "Validation request failed") := by
  refine ⟨rfl, rfl, rfl, fun h => ?_, fun h => ?_⟩
  · rw [validateNetworkOutcome, h]
    rfl
  · rw [validateNetworkOutcome, h]
    rfl

/-- Witness for C6: both response branches on a concrete body. -/
theorem validate_entry_point_witness :
    validateNetworkOutcome true wVr6 = .returned wVr6 ∧
    validateNetworkOutcome false wVr6 = .thrown "Validation request failed" :=
  ⟨(validate_entry_point wNet6 true wVr6).2.2.2.1 rfl,
   (validate_entry_point wNet6 false wVr6).2.2.2.2 rfl⟩

/-- C7: on a result whose critical path is absent, the chart derives an empty data
set and renders the no-data placeholder; the guard returns before any access to the
absent path, so no error is raised. -/
theorem absent_critical_path_nonfatal (r : CalculationResult)
    (h : r.critical_path = none) :
    chartData r = [] ∧ renderPressureChart r = .placeholder := by
  have hd : chartData r = [] := by
    unfold chartData
    rw [h]
  refine ⟨hd, ?_⟩
  rw [renderPressureChart, hd]
  rfl

/-- Witness for C7: the chart outputs on a concrete result with an absent path. -/
theorem absent_critical_path_nonfatal_witness :
    chartData resNoPath7 = [] ∧ renderPressureChart resNoPath7 = .placeholder :=
  absent_critical_path_nonfatal resNoPath7 rfl

/-- The chart comparator is transitive. -/
theorem distanceLe_trans (a b c : ChartDataPoint)
    (hab : distanceLe a b) (hbc : distanceLe b c) : distanceLe a c := by
  simp only [distanceLe, decide_eq_true_eq] at hab hbc ⊢
  exact le_trans hab hbc

/-- The chart comparator is total. -/
theorem distanceLe_total (a b : ChartDataPoint) : distanceLe a b || distanceLe b a := by
  simp only [distanceLe, Bool.or_eq_true, decide_eq_true_eq]
  exact le_total a.distance b.distance

/-- C8: with a non-null critical path, the chart data is a permutation of the points
of exactly those path node ids that match a node result (one point per matching
occurrence, non-matching ids silently skipped, never an error), and it is ordered by
nondecreasing distance from the source whatever the order of `path_nodes`. -/
theorem chart_data_construction (r : CalculationResult) (cp : CriticalPath)
    (h : r.critical_path = some cp) :
    (chartData r).Perm (cp.path_nodes.filterMap (chartPoint r)) ∧
    (chartData r).Pairwise (fun a b => a.distance ≤ b.distance) ∧
    (∀ nodeId ∈ cp.path_nodes,
      r.nodes.find? (fun n => n.node_id == nodeId) = none →
      ∀ p ∈ chartData r, p.nodeId ≠ nodeId) := by
  have hcd : chartData r = (cp.path_nodes.filterMap (chartPoint r)).mergeSort distanceLe := by
    unfold chartData
    rw [h]
  refine ⟨?_, ?_, ?_⟩
  · rw [hcd]
    exact List.mergeSort_perm _ _
  · rw [hcd]
    have hp := List.sorted_mergeSort distanceLe_trans distanceLe_total
      (cp.path_nodes.filterMap (chartPoint r))
    exact hp.imp fun hab => of_decide_eq_true hab
  · intro nodeId hmem hfind p hp hpid
    rw [hcd, List.mem_mergeSort, List.mem_filterMap] at hp
    obtain ⟨a, ha, hpa⟩ := hp
    unfold chartPoint at hpa
    cases hfa : r.nodes.find? fun n => n.node_id == a with
    | none =>
      rw [hfa] at hpa
      simp at hpa
    | some nr =>
      rw [hfa] at hpa
      simp only [Option.map_some', Option.some.injEq] at hpa
      have hid : p.nodeId = nr.node_id := by rw [← hpa]
      rw [List.find?_eq_none] at hfind
      refine hfind nr (List.mem_of_find?_eq_some hfa) ?_
      rw [beq_iff_eq, ← hid, hpid]

/-- Witness for C8: the chart-data properties on a concrete result whose path ids
are out of distance order and include an id with no node result. -/
theorem chart_data_construction_witness :
    (chartData res8).Perm (cp8.path_nodes.filterMap (chartPoint res8)) ∧
    (chartData res8).Pairwise (fun a b => a.distance ≤ b.distance) ∧
    (∀ nodeId ∈ cp8.path_nodes,
      res8.nodes.find? (fun n => n.node_id == nodeId) = none →
      ∀ p ∈ chartData res8, p.nodeId ≠ nodeId) :=
  chart_data_construction res8 cp8 rfl

/-- A list member distinct from the element at the erased index survives
`eraseIdx`. -/
theorem mem_eraseIdx_of_ne {α : Type} {l : List α} {k : Nat} {a : α} (ha : a ∈ l)
    (hk : k < l.length) (hne : a ≠ l.get ⟨k, hk⟩) : a ∈ l.eraseIdx k := by
  rw [List.mem_eraseIdx_iff_getElem]
  obtain ⟨j, hj, hja⟩ := List.mem_iff_getElem.mp ha
  refine ⟨j, hj, ?_, hja⟩
  intro hjk
  subst hjk
  apply hne
  rw [← hja, List.get_eq_getElem]

/-- C9: removing the node at an index leaves both lists unchanged when that node is
the source; otherwise it removes exactly that node and precisely the edges whose
endpoints name its id — and whenever every edge referenced existing nodes and a
source was present before the call, both facts still hold afterwards. -/
theorem remove_node_invariant (s : EditorState) (i : Fin s.nodes.length) :
    ((s.nodes.get i).type = NodeType.source → removeNode s i = s) ∧
    ((s.nodes.get i).type ≠ NodeType.source →
      (removeNode s i).nodes = s.nodes.eraseIdx i.1 ∧
      (removeNode s i).edges = s.edges.filter fun e =>
        e.from_node ≠ (s.nodes.get i).node_id ∧ e.to_node ≠ (s.nodes.get i).node_id) ∧
    (edgesReferenceNodes s → hasSource s →
      edgesReferenceNodes (removeNode s i) ∧ hasSource (removeNode s i)) := by
  refine ⟨fun hsrc => ?_, fun hns => ?_, fun href hs => ?_⟩
  · unfold removeNode
    rw [if_pos hsrc]
  · unfold removeNode
    rw [if_neg hns]
    exact ⟨rfl, rfl⟩
  · by_cases hsrc : (s.nodes.get i).type = NodeType.source
    · have : removeNode s i = s := by
        unfold removeNode
        rw [if_pos hsrc]
      rw [this]
      exact ⟨href, hs⟩
    · have hnodes : (removeNode s i).nodes = s.nodes.eraseIdx i.1 := by
        unfold removeNode
        rw [if_neg hsrc]
      have hedges : (removeNode s i).edges = s.edges.filter fun e =>
          e.from_node ≠ (s.nodes.get i).node_id ∧
          e.to_node ≠ (s.nodes.get i).node_id := by
        unfold removeNode
        rw [if_neg hsrc]
      constructor
      · intro e he
        rw [hedges, List.mem_filter] at he
        obtain ⟨hee, hpred⟩ := he
        obtain ⟨hfrom, hto⟩ := of_decide_eq_true hpred
        obtain ⟨⟨mf, hmf, hmfid⟩, mt, hmt, hmtid⟩ := href e hee
        rw [hnodes]
        refine ⟨⟨mf, ?_, hmfid⟩, mt, ?_, hmtid⟩
        · refine mem_eraseIdx_of_ne hmf i.2 fun hEq => hfrom ?_
          rw [← hmfid, hEq]
        · refine mem_eraseIdx_of_ne hmt i.2 fun hEq => hto ?_
          rw [← hmtid, hEq]
      · obtain ⟨m, hm, hmty⟩ := hs
        unfold hasSource
        rw [hnodes]
        refine ⟨m, mem_eraseIdx_of_ne hm i.2 fun hEq => hsrc ?_, hmty⟩
        rw [← hEq]
        exact hmty

/-- Witness for C9: removing the hydrant of `w9s` drops it and its pipe while
keeping the invariants; the theorem applied at the concrete state and index. -/
theorem remove_node_invariant_witness :
    (removeNode w9s w9i).nodes = w9s.nodes.eraseIdx 1 ∧
    edgesReferenceNodes (removeNode w9s w9i) ∧ hasSource (removeNode w9s w9i) :=
  ⟨((remove_node_invariant w9s w9i).2.1 (by decide)).1,
   (remove_node_invariant w9s w9i).2.2
     (by unfold edgesReferenceNodes; decide)
     (by unfold hasSource; decide)⟩

end HydrantCalc
